import Mathlib

/-!
Verification development for the `sglake-parallel` repository
(`source/stokes.py` and `source/post_process.py`).

The two Python files are scientific glue over the DOLFIN/FEniCS
finite-element library.  We give a shallow embedding of the parts the
claims are about:

* a small deep embedding of the UFL expressions and boundary measures
  that appear in `weak_form` (the symbolic nonlinear residual built in
  `stokes.py`, lines 35-55);
* the pointwise scalar semantics of the penalty functional `Pi`, its
  derivative `dPi`, and the Glen's-law viscosity `eta` (floats are
  embedded as rationals, except for the genuinely non-integer power in
  `eta`, which is embedded over the reals with `Real.rpow`);
* the finite-element layouts built by `stokes_solve` and by the
  post-processing loop;
* the MPI collective operations performed by the two files;
* the gather/broadcast computation of the surface height `h0` and the
  choice of the `Hght` coefficient of the cryostatic boundary
  expression `g_cryo`;
* the external-solver invocation and its Newton parameters;
* an `Except`-monad rendering of the fallible library calls, showing
  that errors propagate unhandled.
-/

namespace stokes

/-- Boundary measures of the problem: `dx` is the interior measure and
`ds k` is the exterior facet measure restricted to the boundary marked
`k` (1,2 side walls; 3 ice-bed; 4 ice-water; 5,6 extra side walls in
3D), as produced by `Measure('ds', ...)` in `stokes_solve`. -/
inductive Meas where
  | dx : Meas
  | ds : Nat → Meas
deriving DecidableEq, Repr

/-- Scalar (parameter-level) expressions: the arguments of `Constant(...)`
in `stokes.py`.  `param s` is a named parameter imported from
`params.py` (whose values are not part of this repository), `vdot` is
the call `Vdot(lake_vol_0,t)`, `assembleOne m` is `assemble(1*m)`, and
the arithmetic constructors mirror the Python arithmetic. -/
inductive PExpr where
  | param : String → PExpr
  | vdot : PExpr
  | assembleOne : Meas → PExpr
  | lit : ℚ → PExpr
  | add : PExpr → PExpr → PExpr
  | sub : PExpr → PExpr → PExpr
  | mul : PExpr → PExpr → PExpr
  | div : PExpr → PExpr → PExpr
deriving DecidableEq, Repr

/-- Deep embedding of the UFL expressions occurring in `stokes.py`.
`var s` is a UFL function or geometric quantity named `s` (`u`, `p`,
`pw`, `v`, `q`, `qw`, `f`, `g_lake`, `g_cryo`, `nu`, `T`); `const c` is
`Constant(c)` (bare Python scalars such as `B` are also embedded this
way); `lit` is a Python numeric literal; `npow a k` is `a ** k`;
`ident` is `Identity(2)`; the rest mirror the UFL operators
`dot`, `inner`, `grad`, `sym`, `div`, `abs` and the field arithmetic.
Python's left associativity of `*` is respected. -/
inductive UFL where
  | var : String → UFL
  | const : PExpr → UFL
  | lit : ℚ → UFL
  | add : UFL → UFL → UFL
  | sub : UFL → UFL → UFL
  | neg : UFL → UFL
  | mul : UFL → UFL → UFL
  | div : UFL → UFL → UFL
  | dot : UFL → UFL → UFL
  | inner : UFL → UFL → UFL
  | grad : UFL → UFL
  | sym : UFL → UFL
  | divg : UFL → UFL
  | abs : UFL → UFL
  | npow : UFL → PExpr → UFL
  | ident : UFL
deriving DecidableEq, Repr

/-- `Pi(u,nu)` from `stokes.py`: with `un = dot(u,nu)`, the expression
`0.5*(un**2.0 + un*abs(un))` (the float exponent `2.0` is the integral
literal `2`). -/
def Pi (u nu : UFL) : UFL :=
  UFL.mul (UFL.lit (1/2))
    (UFL.add (UFL.npow (UFL.dot u nu) (PExpr.lit 2))
             (UFL.mul (UFL.dot u nu) (UFL.abs (UFL.dot u nu))))

/-- `dPi(u,nu)` from `stokes.py`: with `un = dot(u,nu)`, the expression
`un + abs(un)`. -/
def dPi (u nu : UFL) : UFL :=
  UFL.add (UFL.dot u nu) (UFL.abs (UFL.dot u nu))

/-- `eta(u)` from `stokes.py`:
`0.5*B*((inner(sym(grad(u)),sym(grad(u)))+Constant(eps_v))**(rm2/2.0))`. -/
def eta (u : UFL) : UFL :=
  UFL.mul (UFL.mul (UFL.lit (1/2)) (UFL.const (PExpr.param "B")))
    (UFL.npow
      (UFL.add (UFL.inner (UFL.sym (UFL.grad u)) (UFL.sym (UFL.grad u)))
               (UFL.const (PExpr.param "eps_v")))
      (PExpr.div (PExpr.param "rm2") (PExpr.lit 2)))

/-- `sigma(u,p)` from `stokes.py`: `-p*Identity(2) + 2*eta(u)*sym(grad(u))`. -/
def sigma (u p : UFL) : UFL :=
  UFL.add (UFL.neg (UFL.mul p UFL.ident))
    (UFL.mul (UFL.mul (UFL.lit 2) (eta u)) (UFL.sym (UFL.grad u)))

/-- The constant `L0` of `weak_form`: `Constant(assemble(1*ds(4))+assemble(1*ds(3)))`,
the measure of the entire lower boundary. -/
def L0 : PExpr := PExpr.add (PExpr.assembleOne (Meas.ds 4)) (PExpr.assembleOne (Meas.ds 3))

/-- The constant `L1` of `weak_form`: `Constant(assemble(1*ds(4)))`, the
measure of the ice-water boundary. -/
def L1 : PExpr := PExpr.assembleOne (Meas.ds 4)

/-- A variational form: a sum of integrals, each an integrand paired
with the measure it is integrated against. -/
abbrev Form := List (UFL × Meas)

/-- The normal-stress integrand on the ice-water boundary `ds(4)`:
`(g_lake+pw+Constant(rho_w*g*dt)*(dot(u,nu)+Constant(Vdot(lake_vol_0,t)/L1)))*inner(nu,v)`. -/
def lake_term (u pw v g_lake nu : UFL) : UFL :=
  UFL.mul
    (UFL.add (UFL.add g_lake pw)
      (UFL.mul (UFL.const (PExpr.mul (PExpr.mul (PExpr.param "rho_w") (PExpr.param "g")) (PExpr.param "dt")))
        (UFL.add (UFL.dot u nu) (UFL.const (PExpr.div PExpr.vdot L1)))))
    (UFL.inner nu v)

/-- The normal-stress integrand on the ice-bed boundary `ds(3)`:
`(g_lake+pw-Constant(sigma_0)+Constant(rho_w*g*dt)*(dot(u,nu)+Constant(Vdot(lake_vol_0,t)/L1)))*inner(nu,v)`. -/
def bed_term (u pw v g_lake nu : UFL) : UFL :=
  UFL.mul
    (UFL.add (UFL.sub (UFL.add g_lake pw) (UFL.const (PExpr.param "sigma_0")))
      (UFL.mul (UFL.const (PExpr.mul (PExpr.mul (PExpr.param "rho_w") (PExpr.param "g")) (PExpr.param "dt")))
        (UFL.add (UFL.dot u nu) (UFL.const (PExpr.div PExpr.vdot L1)))))
    (UFL.inner nu v)

/-- The lake-volume-constraint integrand multiplied by the test function
`qw`: `qw*(inner(u,nu)+Constant(Vdot(lake_vol_0,t))/L0)`, integrated over
both `ds(4)` and `ds(3)` in `weak_form`. -/
def constraint_term (u qw nu : UFL) : UFL :=
  UFL.mul qw
    (UFL.add (UFL.inner u nu) (UFL.div (UFL.const PExpr.vdot) (UFL.const L0)))

/-- The impenetrability-penalty integrand of `weak_form`:
`Constant(1/eps_p)*dPi(u,nu)*dot(v,nu)`. -/
def penalty_term (u v nu : UFL) : UFL :=
  UFL.mul
    (UFL.mul (UFL.const (PExpr.div (PExpr.lit 1) (PExpr.param "eps_p"))) (dPi u nu))
    (UFL.dot v nu)

/-- The cryostatic side-wall integrand of `weak_form`: `g_cryo*inner(nu,v)`. -/
def cryo_term (v g_cryo nu : UFL) : UFL := UFL.mul g_cryo (UFL.inner nu v)

/-- `weak_form(u,p,pw,v,q,qw,f,g_lake,g_cryo,ds,nu,T,lake_vol_0,t)` from
`stokes.py`, lines 35-55, as a list of (integrand, measure) pairs in
source order.  The module-level parameter `dim` (from `params.py`) is
passed explicitly; the measure argument `ds` is symbolic (`Meas.ds`),
and `Vdot(lake_vol_0,t)` is the symbolic constant `PExpr.vdot`. -/
def weak_form (u p pw v q qw f g_lake g_cryo nu T : UFL) (dim : String) : Form :=
  [ (UFL.mul (UFL.mul (UFL.lit 2) (eta u)) (UFL.inner (UFL.sym (UFL.grad u)) (UFL.sym (UFL.grad v))), Meas.dx),
    (UFL.add (UFL.neg (UFL.mul (UFL.divg v) p)) (UFL.mul q (UFL.divg u)), Meas.dx),
    (UFL.neg (UFL.inner f v), Meas.dx),
    (lake_term u pw v g_lake nu, Meas.ds 4),
    (constraint_term u qw nu, Meas.ds 4),
    (bed_term u pw v g_lake nu, Meas.ds 3),
    (constraint_term u qw nu, Meas.ds 3),
    (penalty_term u v nu, Meas.ds 3),
    (UFL.mul (UFL.const (PExpr.param "C")) (UFL.inner (UFL.dot T u) (UFL.dot T v)), Meas.ds 3),
    (cryo_term v g_cryo nu, Meas.ds 2),
    (cryo_term v g_cryo nu, Meas.ds 1),
    (UFL.neg (UFL.inner (UFL.dot T (UFL.dot (sigma u p) nu)) (UFL.dot T v)), Meas.ds 1),
    (UFL.neg (UFL.inner (UFL.dot T (UFL.dot (sigma u p) nu)) (UFL.dot T v)), Meas.ds 2) ]
  ++ (if dim ≠ "2D" then
        [ (cryo_term v g_cryo nu, Meas.ds 5),
          (cryo_term v g_cryo nu, Meas.ds 6) ]
      else [])

/-- The residual `Fw` as assembled in `stokes_solve` (line 127): the weak
form applied to the split trial functions `(u,p,pw)`, the test functions
`(v,q,qw)`, the body force `f`, the boundary expressions `g_lake` and
`g_cryo`, the facet normal `nu` and the tangential projection `T`. -/
def Fw (dim : String) : Form :=
  weak_form (UFL.var "u") (UFL.var "p") (UFL.var "pw")
    (UFL.var "v") (UFL.var "q") (UFL.var "qw")
    (UFL.var "f") (UFL.var "g_lake") (UFL.var "g_cryo")
    (UFL.var "nu") (UFL.var "T") dim

/-- Does a UFL expression contain an `abs` subexpression?  In the whole
of `stokes.py` the operator `abs` occurs only inside `Pi` and `dPi`, so
on the residual this is exactly "mentions the penalty (derivative)". -/
def containsAbs : UFL → Bool
  | UFL.var _ => false
  | UFL.const _ => false
  | UFL.lit _ => false
  | UFL.add a b => containsAbs a || containsAbs b
  | UFL.sub a b => containsAbs a || containsAbs b
  | UFL.neg a => containsAbs a
  | UFL.mul a b => containsAbs a || containsAbs b
  | UFL.div a b => containsAbs a || containsAbs b
  | UFL.dot a b => containsAbs a || containsAbs b
  | UFL.inner a b => containsAbs a || containsAbs b
  | UFL.grad a => containsAbs a
  | UFL.sym a => containsAbs a
  | UFL.divg a => containsAbs a
  | UFL.abs _ => true
  | UFL.npow a _ => containsAbs a
  | UFL.ident => false

end stokes

namespace stokes.scalar

/-- Pointwise scalar semantics of `Pi(u,nu)` from `stokes.py`: with
`un` the scalar value of `dot(u,nu)`, the value `0.5*(un**2.0+un*abs(un))`.
Floats are embedded as rationals; Python evaluates `un**2.0` at the
integral exponent `2.0` as the integer power. -/
def Pi (un : ℚ) : ℚ := 1/2*(un^2 + un*|un|)

/-- Pointwise scalar semantics of `dPi(u,nu)` from `stokes.py`: with
`un` the scalar value of `dot(u,nu)`, the value `un+abs(un)`. -/
def dPi (un : ℚ) : ℚ := un + |un|

/-- Pointwise scalar semantics of `eta(u)` from `stokes.py`:
`0.5*B*((inner(sym(grad(u)),sym(grad(u)))+eps_v)**(rm2/2.0))` where `S`
is the scalar value of `inner(sym(grad(u)),sym(grad(u)))` at a point and
`B`, `eps_v`, `rm2` are the parameters imported from `params.py` (not
part of this repository, hence arguments).  The float power with the
non-integral exponent `rm2/2.0` is embedded as `Real.rpow`. -/
noncomputable def eta (B eps_v rm2 S : ℝ) : ℝ := 1/2*B*(S + eps_v)^(rm2/2)

/-- The value that the `qw`-component of the residual `Fw` integrates to
over the whole lower boundary `ds(3) ∪ ds(4)` when the test function
`qw` is the constant 1: `flux` is the integral of `inner(u,nu)` over the
lower boundary, `vdot` the value of `Vdot(lake_vol_0,t)`, and `L0v` the
value of `L0 = assemble(1*ds(4))+assemble(1*ds(3))`, so the constant
integrand `Vdot/L0` contributes `vdot/L0v * L0v`. -/
def lake_volume_residual (flux vdot L0v : ℚ) : ℚ := flux + vdot/L0v * L0v

end stokes.scalar

namespace stokes

/-- A finite element as built by `FiniteElement(family, cell, degree)`:
the family string (`'P'` continuous Lagrange, `'R'` global real) and the
polynomial degree. -/
structure FE where
  family : String
  degree : Nat
deriving DecidableEq, Repr

/-- A mixed element `MixedElement([[velocity components], pressure, real])`
as built in `stokes_solve` and in `post_process.py`. -/
structure MixedFE where
  velocity : List FE
  pressure : FE
  water : FE
deriving DecidableEq, Repr

/-- `P1 = FiniteElement('P',mesh.ufl_cell(),1)` (pressure). -/
def P1 : FE := ⟨"P", 1⟩

/-- `P2 = FiniteElement('P',mesh.ufl_cell(),2)` (velocity). -/
def P2 : FE := ⟨"P", 2⟩

/-- `R = FiniteElement("R",mesh.ufl_cell(),0)` (mean water pressure). -/
def R : FE := ⟨"R", 0⟩

/-- The mixed element built in `stokes_solve` (lines 63-70):
`[[P2,P2,P2],P1,R]` when `dim != '2D'`, else `[[P2,P2],P1,R]`. -/
def stokes_element (dim : String) : MixedFE :=
  if dim ≠ "2D" then ⟨[P2, P2, P2], P1, R⟩ else ⟨[P2, P2], P1, R⟩

/-- An MPI collective operation on `MPI.COMM_WORLD`, with the name of the
payload and the root rank. -/
inductive Collective where
  | gather : String → Nat → Collective
  | bcast : String → Nat → Collective
deriving DecidableEq, Repr

/-- The collective operations performed by `stokes_solve`, in order: the
single gather of `mesh.coordinates()` to rank 0 (line 80) and the single
broadcast of `h0` from rank 0 (line 88).  No other MPI call occurs in
`stokes.py`. -/
def stokes_solve_collectives : List Collective :=
  [Collective.gather "mesh_coordinates" 0, Collective.bcast "h0" 0]

/-- The Newton solver parameters passed to `solve` in `stokes_solve`
(line 131): `{"relative_tolerance": 1e-14, "linear_solver": "mumps",
"maximum_iterations": 50}`. -/
structure NewtonParams where
  relative_tolerance : ℚ
  linear_solver : String
  maximum_iterations : Nat
deriving DecidableEq, Repr

/-- The concrete Newton parameters used by `stokes_solve`. -/
def stokes_newton_params : NewtonParams := ⟨1/10^14, "mumps", 50⟩

/-- The invocations of the library's nonlinear `solve` in the body of
`stokes_solve` (there is exactly one, on `Fw == 0`, at line 130; the
function contains no loop and no iteration of its own). -/
def stokes_solve_solver_calls : List NewtonParams := [stokes_newton_params]

/-- The tail of `stokes_solve` after the call to `solve`: the solution
function `w` (mutated in place by the library) is returned unchanged
(line 142). -/
def stokes_solve_return {α : Type} (w : α) : α := w

/-- `np.concatenate` of the per-rank coordinate arrays gathered to rank 0
(lines 80-83).  A coordinate row is embedded as its first two columns
`(x, y)` (the only ones `h0` reads); floats are rationals. -/
def gathered_coords (ranks : List (List (ℚ × ℚ))) : List (ℚ × ℚ) := ranks.flatten

/-- The computation of `h0` on rank 0 (line 84):
`np.max(M[:,1][np.abs(M[:,0])<tol])`, the maximum `y`-coordinate among
the gathered mesh vertices whose `|x| < tol`; `none` when no vertex
satisfies the filter (where `np.max` would raise). -/
def h0_root (tol : ℚ) (M : List (ℚ × ℚ)) : Option ℚ :=
  ((M.filter fun c => |c.1| < tol).map Prod.snd).maximum

/-- The value of `h0` held by each rank after `h0 = comm.bcast(h0, root=0)`
(line 88): every rank receives the value computed on rank 0 from the
concatenation of all ranks' coordinates. -/
def h0_bcast (tol : ℚ) (ranks : List (List (ℚ × ℚ))) : List (Option ℚ) :=
  ranks.map fun _ => h0_root tol (gathered_coords ranks)

/-- The cryostatic side-wall Neumann expression
`Expression('rho_i*g*(Hght-x[c])', rho_i=rho_i, g=g, Hght=h, degree=1)`:
the coefficient values bound into it and the coordinate index `c` it
reads (2 in 3D, 1 in 2D). -/
structure CryoExpr where
  rho_i : ℚ
  g : ℚ
  Hght : ℚ
  coord : Nat
deriving DecidableEq, Repr

/-- The construction of `g_cryo` in `stokes_solve` (lines 113-121): when
`dim != '2D'` the height coefficient is the parameter `Hght` and the
vertical coordinate is `x[2]`; in the 2D case the height coefficient is
the gathered-and-broadcast mesh height `h0` and the vertical coordinate
is `x[1]`. -/
def g_cryo (dim : String) (rho_i g Hght h0 : ℚ) : CryoExpr :=
  if dim ≠ "2D" then ⟨rho_i, g, Hght, 2⟩ else ⟨rho_i, g, h0, 1⟩

/-- Line ranges of `try`/`except` statements in `stokes.py`: there are
none; the file contains no exception handler. -/
def stokes_try_blocks : List (Nat × Nat) := []

/-- The fallible skeleton of `stokes_solve` in the `Except` monad: the
library calls that can raise are the boundary assemblies performed while
building the weak form and `s_mean` (lines 39-40, 110) and the nonlinear
`solve` (line 130).  The body wraps none of them in a handler, so the
first error is returned as is. -/
def stokes_solve_run {W : Type} (assemble_boundary : Except String ℚ)
    (assemble_smean : Except String ℚ) (newton_solve : Except String W) :
    Except String W := do
  let _L0 ← assemble_boundary
  let _smean ← assemble_smean
  newton_solve

end stokes

namespace post_process

/-- The solution file opened at iteration `i` of the post-processing
loop: `"./results/h5files/sol"+str(i)+".h5"` (line 13). -/
def sol_file (i : Nat) : String := "./results/h5files/sol" ++ toString i ++ ".h5"

/-- The mixed element built in `post_process.py` (lines 17-21):
unconditionally `MixedElement([[P2,P2,P2],P1,R])`. -/
def element : stokes.MixedFE := ⟨[stokes.P2, stokes.P2, stokes.P2], stokes.P1, stokes.R⟩

/-- The collective operations performed by one iteration of the
post-processing loop, in order (lines 27-34): seven gathers to rank 0,
of `h`, `s`, `wb`, `xh`, `yh`, `xs`, `ys`. -/
def iteration_collectives : List stokes.Collective :=
  [stokes.Collective.gather "h" 0, stokes.Collective.gather "s" 0,
   stokes.Collective.gather "wb" 0, stokes.Collective.gather "xh" 0,
   stokes.Collective.gather "yh" 0, stokes.Collective.gather "xs" 0,
   stokes.Collective.gather "ys" 0]

/-- The collective operations performed by the whole post-processing
script: the loop body runs for `i in range(nt)`. -/
def collectives (nt : Nat) : List stokes.Collective :=
  (List.replicate nt iteration_collectives).flatten

/-- Line ranges of `try`/`except` statements in `post_process.py`: there
are none; the file contains no exception handler. -/
def try_blocks : List (Nat × Nat) := []

/-- The fallible skeleton of one iteration of the post-processing loop
in the `Except` monad: opening the HDF5 file (line 13), reading the mesh
(line 15), reading the solution (line 23), then the pure field
extraction and plotting.  No handler wraps any of these, so the first
error is returned as is. -/
def step_run {F M W O : Type} (hdf5_open : Except String F)
    (read_mesh : F → Except String M) (read_solution : F → M → Except String W)
    (get_fields : W → M → O) : Except String O := do
  let f ← hdf5_open
  let m ← read_mesh f
  let w ← read_solution f m
  pure (get_fields w m)

end post_process

/-!  Theorems settling the claims. -/

/-- Claim C1: for every value of `dim`, the residual built by `weak_form`
(as instantiated in `stokes_solve`) contains the impenetrability penalty
term `Constant(1/eps_p)*dPi(u,nu)*dot(v,nu)` exactly against the ice-bed
measure `ds(3)`, with `dPi(u,nu) = dot(u,nu) + abs(dot(u,nu))`; every
integrand of the residual on a measure other than `ds(3)` contains no
`abs` (hence no penalty term on `ds(4)`, `ds(1)`, `ds(2)` or anywhere
else). -/
theorem C1_penalty_only_on_bed (u p pw v q qw f g_lake g_cryo nu T : stokes.UFL)
    (dim : String) :
    stokes.penalty_term u v nu =
      stokes.UFL.mul
        (stokes.UFL.mul
          (stokes.UFL.const (stokes.PExpr.div (stokes.PExpr.lit 1) (stokes.PExpr.param "eps_p")))
          (stokes.UFL.add (stokes.UFL.dot u nu) (stokes.UFL.abs (stokes.UFL.dot u nu))))
        (stokes.UFL.dot v nu)
    ∧ (stokes.penalty_term u v nu, stokes.Meas.ds 3)
        ∈ stokes.weak_form u p pw v q qw f g_lake g_cryo nu T dim
    ∧ (stokes.Fw dim).all
        (fun t => t.2 == stokes.Meas.ds 3 || !(stokes.containsAbs t.1)) = true := by
  refine ⟨rfl, ?_, ?_⟩ <;>
    by_cases h : dim = "2D" <;>
      simp [stokes.Fw, stokes.weak_form, h] <;> decide

/-- Claim C2: in the residual built by `weak_form` (as instantiated in
`stokes_solve`) the test function `qw` of the mean-water-pressure
unknown multiplies `inner(u,nu) + Vdot(lake_vol_0,t)/L0` against both
the ice-water measure `ds(4)` and the ice-bed measure `ds(3)`, where
`L0 = assemble(1*ds(4)) + assemble(1*ds(3))` is the total lower-boundary
measure; consequently, when the total measure `L0v` is nonzero, the
integrated `qw`-component vanishes (as it does at a solution, where the
residual is zero against every test function) exactly when the net
normal flux over the entire lower boundary equals `-Vdot`. -/
theorem C2_lake_volume_constraint (dim : String) (flux vdot L0v : ℚ) (hL : L0v ≠ 0) :
    (stokes.constraint_term (stokes.UFL.var "u") (stokes.UFL.var "qw") (stokes.UFL.var "nu"),
        stokes.Meas.ds 4) ∈ stokes.Fw dim
    ∧ (stokes.constraint_term (stokes.UFL.var "u") (stokes.UFL.var "qw") (stokes.UFL.var "nu"),
        stokes.Meas.ds 3) ∈ stokes.Fw dim
    ∧ stokes.L0 = stokes.PExpr.add (stokes.PExpr.assembleOne (stokes.Meas.ds 4))
        (stokes.PExpr.assembleOne (stokes.Meas.ds 3))
    ∧ (stokes.scalar.lake_volume_residual flux vdot L0v = 0 ↔ flux = -vdot) := by
  refine ⟨?_, ?_, rfl, ?_⟩
  · by_cases h : dim = "2D" <;> simp [stokes.Fw, stokes.weak_form, h]
  · by_cases h : dim = "2D" <;> simp [stokes.Fw, stokes.weak_form, h]
  · unfold stokes.scalar.lake_volume_residual
    rw [div_mul_cancel₀ _ hL]
    constructor <;> intro h <;> linarith

/-- Witness for C2 at `dim = "3D"`, `flux = -5`, `vdot = 5`, `L0v = 2`. -/
theorem C2_lake_volume_constraint_witness :
    (2:ℚ) ≠ 0 ∧ (stokes.scalar.lake_volume_residual (-5) 5 2 = 0 ↔ (-5:ℚ) = -5) :=
  ⟨by decide, (C2_lake_volume_constraint "3D" (-5) 5 2 (by decide)).2.2.2⟩

/-- Claim C4: `stokes_solve` builds the Taylor-Hood pair with a global
real element: each velocity component is `FiniteElement('P',·,2)`,
pressure is `FiniteElement('P',·,1)`, the mean water pressure is
`FiniteElement('R',·,0)`, and the velocity has two components when
`dim = '2D'` and three otherwise. -/
theorem C4_taylor_hood (dim : String) :
    stokes.stokes_element dim =
      (if dim = "2D" then ⟨[⟨"P", 2⟩, ⟨"P", 2⟩], ⟨"P", 1⟩, ⟨"R", 0⟩⟩
       else ⟨[⟨"P", 2⟩, ⟨"P", 2⟩, ⟨"P", 2⟩], ⟨"P", 1⟩, ⟨"R", 0⟩⟩) := by
  by_cases h : dim = "2D" <;>
    simp [stokes.stokes_element, h, stokes.P1, stokes.P2, stokes.R]

/-- Claim C5: `stokes_solve` makes exactly one call to the library's
nonlinear `solve`, configured with relative tolerance `1e-14`, linear
solver `mumps` and at most 50 Newton iterations, and returns the
solution function `w` unchanged; it performs no iteration of its own. -/
theorem C5_single_delegated_solve :
    stokes.stokes_solve_solver_calls = [⟨1/10^14, "mumps", 50⟩]
    ∧ stokes.stokes_solve_solver_calls.length = 1
    ∧ stokes.stokes_newton_params.relative_tolerance = 1/10^14
    ∧ stokes.stokes_newton_params.linear_solver = "mumps"
    ∧ stokes.stokes_newton_params.maximum_iterations = 50
    ∧ ∀ (α : Type) (w : α), stokes.stokes_solve_return w = w :=
  ⟨rfl, rfl, rfl, rfl, rfl, fun _ _ => rfl⟩

/-- Counterexample to claim C3 as stated: the post-processing loop also
performs collective communication — already its first iteration gathers
the field `h` to rank 0, an MPI collective that is not the mesh-coordinate
gather / `h0` broadcast pair of `stokes_solve`. -/
theorem C3_counterexample :
    stokes.Collective.gather "h" 0 ∈ post_process.collectives 1
    ∧ stokes.Collective.gather "h" 0 ∉ stokes.stokes_solve_collectives := by
  decide

/-- Claim C3, amended: `stokes_solve` performs exactly one gather (of the
mesh coordinates, to rank 0) followed by one broadcast (of `h0`, from
rank 0), and these are its only collectives; but the post-processing
loop additionally performs seven gathers to rank 0 per timestep
(`7*nt` in total, all of them gathers with root 0), so the
gather/broadcast pair in `stokes_solve` is not the only collective
communication in the repository. -/
theorem C3_amended_collectives (nt : Nat) :
    stokes.stokes_solve_collectives =
      [stokes.Collective.gather "mesh_coordinates" 0, stokes.Collective.bcast "h0" 0]
    ∧ post_process.iteration_collectives =
      [stokes.Collective.gather "h" 0, stokes.Collective.gather "s" 0,
       stokes.Collective.gather "wb" 0, stokes.Collective.gather "xh" 0,
       stokes.Collective.gather "yh" 0, stokes.Collective.gather "xs" 0,
       stokes.Collective.gather "ys" 0]
    ∧ (post_process.collectives nt).length = 7 * nt
    ∧ (post_process.collectives nt).all
        (fun c => match c with
          | stokes.Collective.gather _ 0 => true
          | _ => false) = true := by
  refine ⟨rfl, rfl, ?_, ?_⟩
  · induction nt with
    | zero => rfl
    | succ n ih =>
        show (List.replicate (n+1) post_process.iteration_collectives).flatten.length = 7*(n+1)
        rw [List.replicate_succ, List.flatten_cons, List.length_append]
        have h7 : post_process.iteration_collectives.length = 7 := rfl
        have hn : (List.replicate n post_process.iteration_collectives).flatten.length = 7*n := ih
        rw [h7, hn]
        omega
  · induction nt with
    | zero => rfl
    | succ n ih =>
        show (List.replicate (n+1) post_process.iteration_collectives).flatten.all _ = true
        rw [List.replicate_succ, List.flatten_cons, List.all_append, Bool.and_eq_true]
        exact ⟨by decide, ih⟩

/-- Counterexample to claim C6 as stated: in the 2D case the
post-processing script does not rebuild the function space that
`stokes_solve` used — it unconditionally builds the three-velocity-
component layout `[[P2,P2,P2],P1,R]`, while `stokes_solve` with
`dim = '2D'` used `[[P2,P2],P1,R]`. -/
theorem C6_counterexample : post_process.element ≠ stokes.stokes_element "2D" := by
  decide

/-- Claim C6, amended: for every timestep index `i` the post-processing
loop opens the file `./results/h5files/sol<i>.h5` and builds the fixed
mixed layout `[[P2,P2,P2],P1,R]` before reading the solution; this layout
equals the one `stokes_solve` used exactly when `dim ≠ '2D'` — in the 2D
case the reconstructed space differs from the one that produced the
stored solution. -/
theorem C6_amended_space_match (i : Nat) (dim : String) :
    post_process.sol_file i = "./results/h5files/sol" ++ toString i ++ ".h5"
    ∧ (post_process.element = stokes.stokes_element dim ↔ dim ≠ "2D") := by
  refine ⟨rfl, ?_⟩
  by_cases h : dim = "2D"
  · subst h
    simp only [ne_eq]
    decide
  · simp [stokes.stokes_element, h, post_process.element]

/-- Claim C7: neither file contains a `try`/`except` handler, and in the
`Except`-monad rendering of the two entry points every error raised by a
library call (file opening, mesh read, solution read, boundary assembly,
or the nonlinear solve) is returned to the caller as is, with no
fallback or retry; a successful run threads the library results through
unchanged. -/
theorem C7_errors_propagate :
    stokes.stokes_try_blocks = []
    ∧ post_process.try_blocks = []
    ∧ (∀ (W : Type) (e : String) (s : Except String ℚ) (n : Except String W),
        stokes.stokes_solve_run (Except.error e) s n = Except.error e)
    ∧ (∀ (W : Type) (e : String) (a : ℚ) (n : Except String W),
        stokes.stokes_solve_run (Except.ok a) (Except.error e) n = Except.error e)
    ∧ (∀ (W : Type) (e : String) (a b : ℚ),
        stokes.stokes_solve_run (Except.ok a) (Except.ok b) (Except.error e)
          = (Except.error e : Except String W))
    ∧ (∀ (W : Type) (a b : ℚ) (w : W),
        stokes.stokes_solve_run (Except.ok a) (Except.ok b) (Except.ok w) = Except.ok w)
    ∧ (∀ (F M W O : Type) (e : String) (rm : F → Except String M)
        (rs : F → M → Except String W) (gf : W → M → O),
        post_process.step_run (Except.error e) rm rs gf = Except.error e)
    ∧ (∀ (F M W O : Type) (e : String) (f : F)
        (rs : F → M → Except String W) (gf : W → M → O),
        post_process.step_run (Except.ok f) (fun _ => Except.error e) rs gf = Except.error e)
    ∧ (∀ (F M W O : Type) (e : String) (f : F) (m : M) (gf : W → M → O),
        post_process.step_run (Except.ok f) (fun _ => Except.ok m)
          (fun _ _ => Except.error e) gf = Except.error e)
    ∧ (∀ (F M W O : Type) (f : F) (m : M) (w : W) (gf : W → M → O),
        post_process.step_run (Except.ok f) (fun _ => Except.ok m)
          (fun _ _ => Except.ok w) gf = Except.ok (gf w m)) :=
  ⟨rfl, rfl, fun _ _ _ _ => rfl, fun _ _ _ _ => rfl, fun _ _ _ _ => rfl,
   fun _ _ _ _ => rfl, fun _ _ _ _ _ _ _ _ => rfl, fun _ _ _ _ _ _ _ _ => rfl,
   fun _ _ _ _ _ _ _ _ => rfl, fun _ _ _ _ _ _ _ _ => rfl⟩

/-- Claim C8: pointwise, with `un` the value of `dot(u,nu)`, the penalty
functional satisfies `Pi un = un^2` for `un ≥ 0` and `Pi un = 0` for
`un ≤ 0`; it is nonnegative everywhere and vanishes exactly when the
impenetrability constraint `un ≤ 0` holds; and its derivative
`dPi un = un + |un|` equals `2*max(un,0)`, is nonnegative, and also
vanishes exactly on the constraint set. -/
theorem C8_penalty_functional (un : ℚ) :
    stokes.scalar.Pi un = (if 0 ≤ un then un^2 else 0)
    ∧ 0 ≤ stokes.scalar.Pi un
    ∧ (stokes.scalar.Pi un = 0 ↔ un ≤ 0)
    ∧ stokes.scalar.dPi un = 2 * max un 0
    ∧ 0 ≤ stokes.scalar.dPi un
    ∧ (stokes.scalar.dPi un = 0 ↔ un ≤ 0) := by
  unfold stokes.scalar.Pi stokes.scalar.dPi
  rcases le_or_lt 0 un with h | h
  · rw [abs_of_nonneg h, if_pos h, max_eq_left h]
    refine ⟨by ring, by nlinarith, ⟨fun h0 => ?_, fun h0 => ?_⟩, by ring, by linarith,
      ⟨fun h0 => by linarith, fun h0 => by linarith⟩⟩
    · nlinarith
    · have hz : un = 0 := le_antisymm h0 h
      rw [hz]; ring
  · rw [abs_of_neg h, if_neg (not_le.mpr h), max_eq_right h.le]
    refine ⟨by ring, by nlinarith, ⟨fun _ => h.le, fun _ => by ring⟩, by ring, by linarith,
      ⟨fun _ => h.le, fun _ => by ring⟩⟩

/-- Claim C9: when `B > 0` and `eps_v > 0`, for every (nonnegative)
pointwise strain-rate magnitude `S = inner(sym(grad(u)),sym(grad(u)))`,
the base `S + eps_v` of the power in the Glen's-law viscosity is
strictly positive — so the possibly negative exponent `rm2/2` is never
applied to zero — and the viscosity `eta` itself is strictly positive,
for every exponent `rm2`. -/
theorem C9_viscosity_positive (B eps_v rm2 S : ℝ)
    (hB : 0 < B) (he : 0 < eps_v) (hS : 0 ≤ S) :
    0 < S + eps_v ∧ 0 < stokes.scalar.eta B eps_v rm2 S := by
  have hbase : 0 < S + eps_v := by linarith
  refine ⟨hbase, ?_⟩
  unfold stokes.scalar.eta
  have hp := Real.rpow_pos_of_pos hbase (rm2/2)
  have h2 : (0:ℝ) < 1/2 * B := by linarith
  exact mul_pos h2 hp

/-- Witness for C9 at `B = 1`, `eps_v = 1`, `rm2 = -1`, `S = 0`. -/
theorem C9_viscosity_positive_witness :
    (0:ℝ) < 1 ∧ (0:ℝ) < 1 ∧ (0:ℝ) ≤ 0
    ∧ (0 < (0:ℝ) + 1 ∧ 0 < stokes.scalar.eta 1 1 (-1) 0) :=
  ⟨one_pos, one_pos, le_refl 0,
    C9_viscosity_positive 1 1 (-1) 0 one_pos one_pos (le_refl 0)⟩

/-- Claim C10: after the gather to rank 0 and the broadcast, every rank
holds the identical `h0`, namely the one computed from the concatenation
of all ranks' mesh coordinates; that value is the maximum `y`-coordinate
among the vertices with `|x| < tol` (it is attained by such a vertex and
bounds every such `y` from above); and the cryostatic expression
`g_cryo` binds `Hght = h0` (reading `x[1]`) in the 2D case and the
parameter `Hght` (reading `x[2]`) otherwise. -/
theorem C10_h0_gather_and_cryo (tol : ℚ) (ranks : List (List (ℚ × ℚ)))
    (M : List (ℚ × ℚ)) (y m : ℚ) (rho_i g Hght h0 : ℚ) (dim : String) :
    stokes.h0_bcast tol ranks
      = List.replicate ranks.length (stokes.h0_root tol (stokes.gathered_coords ranks))
    ∧ (stokes.h0_root tol M = some m →
        m ∈ (M.filter fun c => |c.1| < tol).map Prod.snd)
    ∧ (y ∈ (M.filter fun c => |c.1| < tol).map Prod.snd →
        stokes.h0_root tol M = some m → y ≤ m)
    ∧ stokes.g_cryo dim rho_i g Hght h0
      = (if dim = "2D" then ⟨rho_i, g, h0, 1⟩ else ⟨rho_i, g, Hght, 2⟩) := by
  refine ⟨?_, ?_, ?_, ?_⟩
  · unfold stokes.h0_bcast
    exact List.map_const' ranks _
  · intro hmax
    exact (List.maximum_eq_coe_iff.mp hmax).1
  · intro hy hmax
    exact (List.maximum_eq_coe_iff.mp hmax).2 y hy
  · by_cases h : dim = "2D" <;> simp [stokes.g_cryo, h]

/-- Witness for C10 at `tol = 1`, two ranks holding `[(0,1)]` and
`[(0,3),(10,7)]`, the gathered coordinates `[(0,1),(0,3),(10,7)]`,
`y = 1`, `m = 3`. -/
theorem C10_h0_gather_and_cryo_witness :
    stokes.h0_root 1 [(0,1),(0,3),(10,7)] = some 3
    ∧ (3:ℚ) ∈ (([(0,1),(0,3),(10,7)] : List (ℚ × ℚ)).filter fun c => |c.1| < 1).map Prod.snd
    ∧ (1:ℚ) ∈ (([(0,1),(0,3),(10,7)] : List (ℚ × ℚ)).filter fun c => |c.1| < 1).map Prod.snd
    ∧ (1:ℚ) ≤ 3 :=
  ⟨by decide, (C10_h0_gather_and_cryo 1 [[(0,1)],[(0,3),(10,7)]] [(0,1),(0,3),(10,7)]
      1 3 0 0 0 0 "2D").2.1 (by decide), by decide,
   (C10_h0_gather_and_cryo 1 [[(0,1)],[(0,3),(10,7)]] [(0,1),(0,3),(10,7)]
      1 3 0 0 0 0 "2D").2.2.1 (by decide) (by decide)⟩
